import Mathlib

/-!
Verification of the `attempt` library (src/attempt/__init__.py): a result
container `Attempted` holding either a value or a captured exception, a
fallible-function wrapper `Attempt` catching a configurable set of exception
kinds, and a lazy sequence adapter `IterAttempted` with a terminal `values`
operation.

Python is unityped and exceptions form a class hierarchy rooted (for
catchable errors) at `Exception`; the module's own annotations only ever
mention `Exception` (`Optional[Exception]`, `Type[Exception]`).  We model
runtime values by a small concrete type `PyVal`, exception classes by a small
concrete hierarchy `ExcKind` with `Exception` at the root, and exception
objects by `Exc` (a kind plus an identifying payload).  A Python callable
that may raise is modelled as a function into `Except Exc _`:
`Except.error e` is an uncaught raise of `e`.
-/

/-- Exception classes, a representative finite fragment of Python's
hierarchy: `ZeroDivisionError < ArithmeticError < Exception`, and
`ValueError`, `TypeError`, `KeyError` directly below `Exception`. -/
inductive ExcKind where
  | exceptionK
  | arithmeticError
  | zeroDivisionError
  | valueError
  | typeError
  | keyError
deriving DecidableEq

/-- The superclasses of an exception class, itself included; mirrors
Python's method-resolution order restricted to this fragment. -/
def ExcKind.ancestors : ExcKind → List ExcKind
  | .exceptionK => [.exceptionK]
  | .arithmeticError => [.arithmeticError, .exceptionK]
  | .zeroDivisionError => [.zeroDivisionError, .arithmeticError, .exceptionK]
  | .valueError => [.valueError, .exceptionK]
  | .typeError => [.typeError, .exceptionK]
  | .keyError => [.keyError, .exceptionK]

/-- An exception object: its class and an identifying payload (standing for
the message/args), so that distinct error objects of one class are
distinguishable and "that exact error object" is expressible. -/
structure Exc where
  kind : ExcKind
  payload : Nat
deriving DecidableEq

/-- `isinstance(e, k)`: the object's class is `k` or a subclass of `k`. -/
def Exc.isInstanceOf (e : Exc) (k : ExcKind) : Bool :=
  e.kind.ancestors.contains k

/-- A Python `except (k1, ..., kn)` clause matches `e` iff `e` is an
instance of one of the listed classes. -/
def excMatches (e : Exc) (kinds : List ExcKind) : Bool :=
  kinds.any (fun k => e.isInstanceOf k)

/-- Runtime values.  `PyVal.none` is Python's `None`. -/
inductive PyVal where
  | none
  | int (n : Int)
  | str (s : String)
deriving DecidableEq

/-- `Attempted`: the result container.  `__init__(value, exception)` stores
both fields; `_exception = Option.none` encodes Python `None` there. -/
structure Attempted where
  _value : PyVal
  _exception : Option Exc
deriving DecidableEq

/-- `Attempted.of(value)`: `cls(value, None)`. -/
def Attempted.of (value : PyVal) : Attempted :=
  ⟨value, Option.none⟩

/-- `Attempted.of_exception(exception)`: `cls(None, exception)`.  The
argument is `Option Exc` because Python does not check the annotation: the
caller may pass `None` (modelled `Option.none`). -/
def Attempted.of_exception (exception : Option Exc) : Attempted :=
  ⟨PyVal.none, exception⟩

/-- The `exception` property: returns `self._exception`. -/
def Attempted.exception (a : Attempted) : Option Exc :=
  a._exception

/-- `__bool__`: `self.exception is None`. -/
def Attempted.toBool (a : Attempted) : Bool :=
  a.exception.isNone

/-- The `value` property: raises `self.exception` when one is present,
otherwise returns `self._value`. -/
def Attempted.value (a : Attempted) : Except Exc PyVal :=
  match a.exception with
  | Option.some e => Except.error e
  | Option.none => Except.ok a._value

/-- `Attempt.__init__`: `if not exc_types: exc_types = Exception`.  An empty
configured tuple is replaced by the single class `Exception`. -/
def Attempt.effectiveKinds (exc_types : List ExcKind) : List ExcKind :=
  if exc_types.isEmpty then [ExcKind.exceptionK] else exc_types

/-- `Attempt.__call__` / the inner `wrapper`: run `fn(args)`; on normal
return produce `Attempted.of(result)`; on a raise matching the configured
`exc_types` produce `Attempted.of_exception(e)`; otherwise the raise
propagates out of the call. -/
def Attempt.call (fn : PyVal → Except Exc PyVal) (exc_types : List ExcKind)
    (arg : PyVal) : Except Exc Attempted :=
  match fn arg with
  | Except.ok v => Except.ok (Attempted.of v)
  | Except.error e =>
      if excMatches e (Attempt.effectiveKinds exc_types) then
        Except.ok (Attempted.of_exception (Option.some e))
      else
        Except.error e

/-- `Attempted.map(fn)`: `if self: return Attempt(fn)(self.value) else:
return self`.  `Attempt(fn)` is constructed with no exception kinds, and a
truthy container's `value` read is its `_value`. -/
def Attempted.map (a : Attempted) (fn : PyVal → Except Exc PyVal) :
    Except Exc Attempted :=
  if a.toBool then Attempt.call fn [] a._value else Except.ok a

/-- `Attempted.flatmap(fn)`: `if self: return fn(self.value) else: return
self`.  `fn` itself returns an `Attempted` and is not guarded: a raise
inside `fn` propagates out of `flatmap`. -/
def Attempted.flatmap (a : Attempted) (fn : PyVal → Except Exc Attempted) :
    Except Exc Attempted :=
  if a.toBool then fn a._value else Except.ok a

/-- Calling `.flatmap(fn)` on the result of an expression that may itself
raise: if the expression raised, the method call is never reached and the
raise propagates. -/
def flatmapE (r : Except Exc Attempted) (fn : PyVal → Except Exc Attempted) :
    Except Exc Attempted :=
  match r with
  | Except.error e => Except.error e
  | Except.ok a => a.flatmap fn

/-- `IterAttempted.values(ignore_failures)`, the terminal generator, run to
exhaustion over a (finite) underlying sequence of containers.  The result is
the list of values yielded in order, paired with `some e` when the generator
terminated by re-raising `e` and `none` when it finished normally.  A truthy
container yields its `_value`; a falsy one is skipped when `ignore_failures`
and otherwise its held exception is raised, consuming no further element. -/
def IterAttempted.values : List Attempted → Bool → List PyVal × Option Exc
  | [], _ => ([], Option.none)
  | t :: ts, ignore_failures =>
    if t.toBool then
      let rest := IterAttempted.values ts ignore_failures
      (t._value :: rest.1, rest.2)
    else
      if ignore_failures then
        IterAttempted.values ts ignore_failures
      else
        ([], t.exception)

/-- `IterAttempted.from_values(xs)`: each element wrapped as a success. -/
def IterAttempted.from_values (xs : List PyVal) : List Attempted :=
  xs.map Attempted.of

example : Attempted.of_exception Option.none = Attempted.of PyVal.none := rfl

example :
    IterAttempted.values
      [Attempted.of (PyVal.int 1),
       Attempted.of_exception (Option.some ⟨ExcKind.typeError, 5⟩),
       Attempted.of (PyVal.int 3)] true
    = ([PyVal.int 1, PyVal.int 3], Option.none) := by decide

example :
    IterAttempted.values
      [Attempted.of (PyVal.int 1),
       Attempted.of_exception (Option.some ⟨ExcKind.typeError, 5⟩),
       Attempted.of (PyVal.int 3)] false
    = ([PyVal.int 1], Option.some ⟨ExcKind.typeError, 5⟩) := by decide

/-! Helper lemmas shared by several claims. -/

theorem excMatches_exceptionK (e : Exc) :
    excMatches e [ExcKind.exceptionK] = true := by
  cases e with
  | mk k p => cases k <;> rfl

theorem values_ignore_eq (ts : List Attempted) :
    IterAttempted.values ts true
      = ((ts.filter Attempted.toBool).map Attempted._value, Option.none) := by
  induction ts with
  | nil => rfl
  | cons t ts ih =>
    by_cases h : t.toBool
    · simp [IterAttempted.values, List.filter_cons, h, ih]
    · simp [IterAttempted.values, List.filter_cons, h, ih]

theorem values_raise_eq (pre : List Attempted) (t : Attempted)
    (post : List Attempted) (hpre : ∀ u ∈ pre, u.toBool = true)
    (ht : t.toBool = false) :
    IterAttempted.values (pre ++ t :: post) false
      = (pre.map Attempted._value, t.exception) := by
  induction pre with
  | nil => simp [IterAttempted.values, ht]
  | cons u pre ih =>
    have hu : u.toBool = true := hpre u (List.mem_cons_self u pre)
    have ih2 := ih (fun v hv => hpre v (List.mem_cons_of_mem u hv))
    simp [IterAttempted.values, hu, ih2]

theorem values_all_success (ts : List Attempted)
    (h : ∀ u ∈ ts, u.toBool = true) :
    IterAttempted.values ts false = (ts.map Attempted._value, Option.none) := by
  induction ts with
  | nil => rfl
  | cons t ts ih =>
    have ht : t.toBool = true := h t (List.mem_cons_self t ts)
    have ih2 := ih (fun v hv => h v (List.mem_cons_of_mem t hv))
    simp [IterAttempted.values, ht, ih2]

/-- A concrete fallible function used in witnesses: raises a `ValueError` on
the integer 0, a `KeyError` on the integer 1, and returns its argument
otherwise. -/
def fnW : PyVal → Except Exc PyVal
  | PyVal.int 0 => Except.error ⟨ExcKind.valueError, 7⟩
  | PyVal.int 1 => Except.error ⟨ExcKind.keyError, 3⟩
  | v => Except.ok v

/-- A concrete container-returning function used in witnesses. -/
def fW : PyVal → Except Exc Attempted :=
  fun v => Except.ok (Attempted.of v)

/-- A second concrete container-returning function used in witnesses. -/
def gW : PyVal → Except Exc Attempted :=
  fun _ => Except.ok (Attempted.of_exception (Option.some ⟨ExcKind.keyError, 2⟩))

/-- C1: for every wrapped function, nonempty configured kind list and
argument, invoking the wrapper yields: on a raise matching a configured kind,
a Failure container holding that exact error object; on a non-matching
raise, the error propagates uncaught out of the call; on normal return, a
success container holding the return value. -/
theorem C1_wrapper_outcomes (fn : PyVal → Except Exc PyVal)
    (exc_types : List ExcKind) (arg : PyVal) (hk : exc_types ≠ []) :
    (∀ e, fn arg = Except.error e → excMatches e exc_types = true →
      Attempt.call fn exc_types arg
        = Except.ok (Attempted.of_exception (Option.some e)))
  ∧ (∀ e, fn arg = Except.error e → excMatches e exc_types = false →
      Attempt.call fn exc_types arg = Except.error e)
  ∧ (∀ v, fn arg = Except.ok v →
      Attempt.call fn exc_types arg = Except.ok (Attempted.of v)) := by
  have heff : Attempt.effectiveKinds exc_types = exc_types := by
    cases exc_types with
    | nil => exact absurd rfl hk
    | cons k ks => rfl
  refine ⟨?_, ?_, ?_⟩
  · intro e h1 h2
    simp [Attempt.call, h1, heff, h2]
  · intro e h1 h2
    simp [Attempt.call, h1, heff, h2]
  · intro v h1
    simp [Attempt.call, h1]

/-- C1 witness: concrete instantiation of the matching-raise branch. -/
theorem C1_wrapper_outcomes_witness :
    Attempt.call fnW [ExcKind.valueError] (PyVal.int 0)
      = Except.ok (Attempted.of_exception
          (Option.some ⟨ExcKind.valueError, 7⟩)) :=
  (C1_wrapper_outcomes fnW [ExcKind.valueError] (PyVal.int 0)
      (by decide)).1 ⟨ExcKind.valueError, 7⟩ (by rfl) (by rfl)

/-- C2: `values` scans in order.  With `ignore_failures = true` it yields
exactly the values of the successful containers and finishes normally; with
`ignore_failures = false`, after a prefix of successes followed by a failed
container it yields exactly the prefix values and re-raises the held error,
independently of anything after the failure; when every container succeeds
it yields all values in order. -/
theorem C2_values_scan (ts : List Attempted) :
    (IterAttempted.values ts true
      = ((ts.filter Attempted.toBool).map Attempted._value, Option.none))
  ∧ (∀ pre t post, ts = pre ++ t :: post →
      (∀ u ∈ pre, u.toBool = true) → t.toBool = false →
      IterAttempted.values ts false
        = (pre.map Attempted._value, t.exception))
  ∧ ((∀ u ∈ ts, u.toBool = true) →
      IterAttempted.values ts false
        = (ts.map Attempted._value, Option.none)) := by
  refine ⟨values_ignore_eq ts, ?_, values_all_success ts⟩
  intro pre t post hts hpre ht
  rw [hts]
  exact values_raise_eq pre t post hpre ht

/-- C2 witness: on `[success 1, TypeError failure, success 3]` with
`ignore_failures = false`, exactly `[1]` is yielded and the held error is
re-raised. -/
theorem C2_values_scan_witness :
    IterAttempted.values
      [Attempted.of (PyVal.int 1),
       Attempted.of_exception (Option.some ⟨ExcKind.typeError, 5⟩),
       Attempted.of (PyVal.int 3)] false
      = ([PyVal.int 1], Option.some ⟨ExcKind.typeError, 5⟩) :=
  (C2_values_scan _).2.1 [Attempted.of (PyVal.int 1)]
    (Attempted.of_exception (Option.some ⟨ExcKind.typeError, 5⟩))
    [Attempted.of (PyVal.int 3)] rfl (by decide) (by rfl)

/-- C3: on a successful container, `map fn` returns a success holding
`fn(value)` when `fn` returns normally, and — without raising — a failure
capturing the error when `fn` raises (the call is guarded by a catch-all
wrapper). -/
theorem C3_map_on_success (a : Attempted) (fn : PyVal → Except Exc PyVal)
    (h : a.toBool = true) :
    (∀ v, fn a._value = Except.ok v →
      a.map fn = Except.ok (Attempted.of v))
  ∧ (∀ e, fn a._value = Except.error e →
      a.map fn = Except.ok (Attempted.of_exception (Option.some e))) := by
  constructor
  · intro v hv
    simp [Attempted.map, h, Attempt.call, hv]
  · intro e he
    simp [Attempted.map, h, Attempt.call, he, Attempt.effectiveKinds,
      excMatches_exceptionK]

/-- C3 witness: mapping `fnW` over a success holding 0 captures the raised
`ValueError` into a failure container instead of raising. -/
theorem C3_map_on_success_witness :
    (Attempted.of (PyVal.int 0)).map fnW
      = Except.ok (Attempted.of_exception
          (Option.some ⟨ExcKind.valueError, 7⟩)) :=
  (C3_map_on_success (Attempted.of (PyVal.int 0)) fnW (by rfl)).2
    ⟨ExcKind.valueError, 7⟩ (by rfl)

/-- C4: on a failed container, `map` and `flatmap` both return the very same
container (hence the same held error), for every callback — the result does
not depend on the callback, so it is never invoked. -/
theorem C4_failed_short_circuit (a : Attempted) (h : a.toBool = false) :
    (∀ fn, a.map fn = Except.ok a) ∧ (∀ g, a.flatmap g = Except.ok a) := by
  constructor
  · intro fn
    simp [Attempted.map, h]
  · intro g
    simp [Attempted.flatmap, h]

/-- C4 witness: a `KeyError` failure short-circuits both `map` and
`flatmap`. -/
theorem C4_failed_short_circuit_witness :
    (Attempted.of_exception (Option.some ⟨ExcKind.keyError, 4⟩)).map fnW
      = Except.ok (Attempted.of_exception (Option.some ⟨ExcKind.keyError, 4⟩))
  ∧ (Attempted.of_exception (Option.some ⟨ExcKind.keyError, 4⟩)).flatmap fW
      = Except.ok (Attempted.of_exception
          (Option.some ⟨ExcKind.keyError, 4⟩)) :=
  ⟨(C4_failed_short_circuit _ (by rfl)).1 fnW,
   (C4_failed_short_circuit _ (by rfl)).2 fW⟩

/-- C5: for every value, including `None`, `Attempted.of` builds a container
that is truthy and whose `value` read returns that value without raising;
success depends only on the absence of a captured error, never on the
value. -/
theorem C5_of_value_success (v : PyVal) :
    (Attempted.of v).toBool = true
  ∧ (Attempted.of v).value = Except.ok v :=
  ⟨rfl, rfl⟩

/-- C6: for every (non-null) error, `Attempted.of_exception` builds a falsy
container whose `value` read re-raises exactly that error, unwrapped. -/
theorem C6_of_error_failure (e : Exc) :
    (Attempted.of_exception (Option.some e)).toBool = false
  ∧ (Attempted.of_exception (Option.some e)).value = Except.error e :=
  ⟨rfl, rfl⟩

/-- C7: `flatmap` is associative on successful containers:
`a.flatmap(f).flatmap(g)` behaves identically (same value, same raised
error if any) to `a.flatmap(fun x => f(x).flatmap(g))`. -/
theorem C7_flatmap_assoc (a : Attempted) (f g : PyVal → Except Exc Attempted)
    (h : a.toBool = true) :
    flatmapE (a.flatmap f) g
      = a.flatmap (fun x => flatmapE (f x) g) := by
  simp [Attempted.flatmap, h]

/-- C7 witness: associativity at a concrete success and concrete
callbacks. -/
theorem C7_flatmap_assoc_witness :
    flatmapE ((Attempted.of (PyVal.int 1)).flatmap fW) gW
      = (Attempted.of (PyVal.int 1)).flatmap (fun x => flatmapE (fW x) gW) :=
  C7_flatmap_assoc (Attempted.of (PyVal.int 1)) fW gW (by rfl)

/-- C8: constructed with no exception kinds, the wrapper defaults to the
root error class `Exception`, so every error the wrapped function raises is
converted into a Failure container rather than propagating. -/
theorem C8_default_catches_every_error (fn : PyVal → Except Exc PyVal)
    (arg : PyVal) (e : Exc) (h : fn arg = Except.error e) :
    Attempt.call fn [] arg
      = Except.ok (Attempted.of_exception (Option.some e)) := by
  simp [Attempt.call, h, Attempt.effectiveKinds, excMatches_exceptionK]

/-- C8 witness: the default wrapper captures `fnW`'s `ValueError`. -/
theorem C8_default_catches_every_error_witness :
    Attempt.call fnW [] (PyVal.int 0)
      = Except.ok (Attempted.of_exception
          (Option.some ⟨ExcKind.valueError, 7⟩)) :=
  C8_default_catches_every_error fnW (PyVal.int 0)
    ⟨ExcKind.valueError, 7⟩ (by rfl)

/-- C9: on a successful container, a raise inside the `flatmap` callback
propagates out of `flatmap` itself — unlike `map`, the callback is not
guarded, so the error is not captured into a failure container. -/
theorem C9_flatmap_unguarded (a : Attempted)
    (fn : PyVal → Except Exc Attempted) (e : Exc) (h : a.toBool = true)
    (hf : fn a._value = Except.error e) :
    a.flatmap fn = Except.error e := by
  simp [Attempted.flatmap, h, hf]

/-- C9 witness: a callback raising a `TypeError` makes `flatmap` raise. -/
theorem C9_flatmap_unguarded_witness :
    (Attempted.of (PyVal.int 1)).flatmap
        (fun _ => Except.error ⟨ExcKind.typeError, 9⟩)
      = Except.error ⟨ExcKind.typeError, 9⟩ :=
  C9_flatmap_unguarded (Attempted.of (PyVal.int 1))
    (fun _ => Except.error ⟨ExcKind.typeError, 9⟩)
    ⟨ExcKind.typeError, 9⟩ (by rfl) (by rfl)

/-- C10: `of_exception` applied to a null error builds literally the same
container as `of(None)`: it is truthy and its `value` read returns `None`
without raising, so the construction is indistinguishable from a success
holding `None`. -/
theorem C10_null_error_reports_success :
    Attempted.of_exception Option.none = Attempted.of PyVal.none
  ∧ (Attempted.of_exception Option.none).toBool = true
  ∧ (Attempted.of_exception Option.none).value = Except.ok PyVal.none :=
  ⟨rfl, rfl, rfl⟩
